import Mathlib

set_option maxHeartbeats 1000000

/-!
Verification development for the sureha `switch.py` platform module.

The module exposes one entity class, `PetFeederAccess` (subclass of
`SurePetcareSwitch`), whose state is derived from two cached snapshots
(a pet and a feeder) held by an external update coordinator, plus the
platform setup function `async_setup_entry` that enumerates the
(pet, feeder) pairs.

The embedding below mirrors the Python source:
  * the coordinator cache is a Python dict keyed by entity id; a subscript
    `data[k]` raises `KeyError` when the key is absent, and, the values being
    ordinary Python objects, a stored value may also be `None` (falsy) —
    the source's walrus guards (`if (pet := data[id]) and ...`) branch on
    exactly that truthiness;
  * raw snapshot data (`raw_data()`) is a JSON-like dictionary of Python
    values with Python truthiness, `.get` and subscript semantics;
  * the unbounded `while` confirm loops are unfolded with explicit fuel
    (the number of loop-condition checks we observe); the external world is
    a function `cacheAt : Nat → Cache` giving the coordinator cache after
    each refresh; remote REST calls and `asyncio.sleep` are recorded as
    events.
-/

/-- Python values appearing in raw snapshot data (the JSON decoded by
`raw_data()`).  `PyVal.none` is Python `None`. -/
inductive PyVal where
  | none
  | str (s : String)
  | nat (n : Nat)
  | dict (entries : List (String × PyVal))

/-- Python truthiness of a raw value: `None`, the empty string, `0` and the
empty dict are falsy. -/
def pyTruthy : PyVal → Bool
  | PyVal.none => false
  | PyVal.str s => s != ""
  | PyVal.nat n => n != 0
  | PyVal.dict l => !l.isEmpty

/-- First-match association-list lookup modelling a Python dict with string
keys (a dict's keys are unique, so first match is the match). -/
def assocFind : List (String × PyVal) → String → Option PyVal
  | [], _ => Option.none
  | (k, v) :: t, key => if k == key then some v else assocFind t key

/-- Python `d.get(key, default)` on a dict value: total, never raises. -/
def pyGetD (d : List (String × PyVal)) (key : String) (dflt : PyVal) : PyVal :=
  match assocFind d key with
  | Option.none => dflt
  | some v => v

/-- The Python exceptions this module can raise. -/
inductive PyErr where
  | keyError (k : Nat)
  | keyErrorStr (k : String)
  | typeError
  | attributeError
deriving DecidableEq

/-- Python subscript `v[key]` with a string key: `KeyError` on a dict that
lacks the key, `TypeError` on any non-dict value (`None`, strings, numbers
are not subscriptable by string). -/
def pySub (v : PyVal) (key : String) : Except PyErr PyVal :=
  match v with
  | PyVal.dict l =>
    match assocFind l key with
    | some x => Except.ok x
    | Option.none => Except.error (PyErr.keyErrorStr key)
  | _ => Except.error PyErr.typeError

/-- Python `str()` as used inside the source's f-strings.  Only the dict
rendering is abbreviated; no claim inspects it. -/
def pyFmt : PyVal → String
  | PyVal.none => "None"
  | PyVal.str s => s
  | PyVal.nat n => toString n
  | PyVal.dict _ => "dict"

/-- The surepy `EntityType` values the module distinguishes (`PET`,
`FEEDER`), plus a representative other member of the enum. -/
inductive EntityType where
  | pet
  | feeder
  | hub
deriving DecidableEq

/-- `self._surepy_entity.type.name.replace("_", " ").title()`. -/
def typeTitle : EntityType → String
  | EntityType.pet => "Pet"
  | EntityType.feeder => "Feeder"
  | EntityType.hub => "Hub"

/-- A feeder tag; the source only reads `t.id`. -/
structure Tag where
  id : Nat
deriving DecidableEq

/-- Snapshot of a surepy entity as cached by the coordinator.  One record
carries every attribute the module reads (Python objects are duck-typed):
`tag_id` is read on pets, `tags` (the values of the feeder's tag dict) on
feeders, `raw` is the `raw_data()` dictionary. -/
structure Entity where
  id : Nat
  etype : EntityType
  household_id : Nat
  name : Option String
  tag_id : Nat
  tags : List Tag
  raw : List (String × PyVal)

/-- The coordinator cache: a dict keyed by entity id.  A key may be absent
(`dictLookup` yields `Option.none`) or map to a possibly-`None` value. -/
abbrev Cache := List (Nat × Option Entity)

/-- Raw dict lookup: outer `none` means the key is absent. -/
def dictLookup (c : Cache) (k : Nat) : Option (Option Entity) :=
  match c.find? (fun kv => kv.1 == k) with
  | Option.none => Option.none
  | some kv => some kv.2

/-- Python subscript `coordinator.data[k]`: raises `KeyError` when the key is
absent; otherwise yields the stored value (which may itself be `None`). -/
def pyGetItem (c : Cache) (k : Nat) : Except PyErr (Option Entity) :=
  match dictLookup c k with
  | Option.none => Except.error (PyErr.keyError k)
  | some v => Except.ok v

/-- Modelled from the spec: constant of the repository's `const` module
(which is not under `src/`); its exact value affects no claim. -/
def DOMAIN : String := "sureha"

/-- Modelled from the spec: manufacturer constant of the repository's
`const` module (not under `src/`); its exact value affects no claim. -/
def SURE_MANUFACTURER : String := "Sure Petcare"

/-- Modelled from the spec: base URL of the vendor REST API (surepy SDK
constant); its exact value affects no claim. -/
def BASE_RESOURCE : String := "https://app-api/api"

/-- Modelled from the spec: the attach/detach URL template
`PUT /<base>/.../device/<device_id>/tag/<tag_id>` (surepy SDK constant). -/
def DEVICE_TAG_RESOURCE (device_id tag_id : Nat) : String :=
  s!"{BASE_RESOURCE}/device/{device_id}/tag/{tag_id}"

/-- Python `str.capitalize`: first character upper-cased, the rest
lower-cased. -/
def pyCapitalize (s : String) : String :=
  match s.toList with
  | [] => ""
  | c :: t => String.mk (c.toUpper :: t.map Char.toLower)

/-- The entity state built by `SurePetcareSwitch.__init__` and
`PetFeederAccess.__init__`.  Field names follow the source attributes. -/
structure PetFeederAccess where
  _id : Nat
  _feeder_id : Nat
  _surepy_entity : Entity
  _state : PyVal
  _name : String
  _attr_available : Bool
  _attr_name : String
  _attr_unique_id : String
  _attr_extra_state_attributes : Option (List (String × PyVal))

/-- `SurePetcareSwitch.__init__` followed by `PetFeederAccess.__init__`:
`self._surepy_entity = coordinator.data[_id]` (a `KeyError` if the pet id is
absent, an `AttributeError` at `raw_data()` if the stored value is `None`),
the derived display attributes, then `feeder = coordinator.data[_feeder_id]`
(`KeyError` if absent, `AttributeError` at `.name` if `None`) and the
subclass name/unique-id overrides. -/
def mkPetFeederAccess (cache : Cache) (petId feederId : Nat) :
    Except PyErr PetFeederAccess :=
  match pyGetItem cache petId with
  | Except.error e => Except.error e
  | Except.ok Option.none => Except.error PyErr.attributeError
  | Except.ok (some ent) =>
    let st := pyGetD ent.raw "status" (PyVal.dict [])
    let type_name := typeTitle ent.etype
    let nm :=
      match ent.name with
      | some n => if n != "" then n else s!"Unnamed {type_name}"
      | Option.none => s!"Unnamed {type_name}"
    let avail := pyTruthy st
    let baseName := s!"{type_name} {nm}"
    let extra := if pyTruthy st then some ent.raw else Option.none
    match pyGetItem cache feederId with
    | Except.error e => Except.error e
    | Except.ok Option.none => Except.error PyErr.attributeError
    | Except.ok (some feeder) =>
      let fname :=
        match feeder.name with
        | some n => n
        | Option.none => "None"
      let hh := ent.household_id
      let pid := ent.id
      let fid := feeder.id
      Except.ok
        { _id := petId
          _feeder_id := feederId
          _surepy_entity := ent
          _state := st
          _name := nm
          _attr_available := avail
          _attr_name := s!"{baseName} {fname} Access"
          _attr_unique_id := s!"{hh}-{pid}-{fid}-feeder-access"
          _attr_extra_state_attributes := extra }

/-- `PetFeederAccess.is_on`: evaluates `self._coordinator.data[self._id]`
(may raise `KeyError`); if falsy, short-circuits to `return None`; otherwise
evaluates `self._coordinator.data[self._feeder_id]` (may raise `KeyError`);
if falsy returns `None`; otherwise returns
`pet.tag_id in {t.id for t in feeder.tags.values()}`. -/
def is_on (s : PetFeederAccess) (cache : Cache) : Except PyErr (Option Bool) :=
  match pyGetItem cache s._id with
  | Except.error e => Except.error e
  | Except.ok Option.none => Except.ok Option.none
  | Except.ok (some pet) =>
    match pyGetItem cache s._feeder_id with
    | Except.error e => Except.error e
    | Except.ok Option.none => Except.ok Option.none
    | Except.ok (some feeder) =>
      Except.ok (some (decide (pet.tag_id ∈ feeder.tags.map Tag.id)))

/-- Observable effects of a command: a remote REST call (the resource URL is
`DEVICE_TAG_RESOURCE device_id tag_id`), an `asyncio.sleep`, or an
`async_request_refresh` of the coordinator. -/
inductive Ev where
  | call (method : String) (device_id : Nat) (tag_id : Nat)
  | sleep (secs : Nat)
  | refresh
deriving DecidableEq

/-- Whether an event is a remote REST call. -/
def isCall : Ev → Bool
  | Ev.call _ _ _ => true
  | _ => false

/-- `_add_tag_to_device`: one `PUT` of the formatted device/tag resource with
empty body (the decoded response is returned but never inspected). -/
def _add_tag_to_device (device_id tag_id : Nat) : Ev :=
  Ev.call "PUT" device_id tag_id

/-- `_remove_tag_from_device`: one `DELETE` of the same resource. -/
def _remove_tag_from_device (device_id tag_id : Nat) : Ev :=
  Ev.call "DELETE" device_id tag_id

/-- The `while not self.is_on:` confirm loop of `async_turn_on`.
`cacheAt k` is the coordinator cache after `k` refreshes, `i` the number of
completed loop-body iterations, `fuel` how many condition checks we unfold
(the source loop is unbounded).  Yields the emitted events and
`.ok (some i)` when the loop exited after `i` iterations, `.ok none` when it
is still running after `fuel` checks, `.error e` when `is_on` raised. -/
def turnOnLoop (s : PetFeederAccess) (cacheAt : Nat → Cache) :
    Nat → Nat → List Ev × Except PyErr (Option Nat)
  | _, 0 => ([], Except.ok Option.none)
  | i, fuel + 1 =>
    match is_on s (cacheAt i) with
    | Except.error e => ([], Except.error e)
    | Except.ok r =>
      if r = some true then ([], Except.ok (some i))
      else
        let rest := turnOnLoop s cacheAt (i + 1) fuel
        (Ev.sleep 2 :: Ev.refresh :: rest.1, rest.2)

/-- The `while self.is_on:` confirm loop of `async_turn_off`: it continues
exactly while the query result is truthy (`True`) and exits on `False` or
`None`. -/
def turnOffLoop (s : PetFeederAccess) (cacheAt : Nat → Cache) :
    Nat → Nat → List Ev × Except PyErr (Option Nat)
  | _, 0 => ([], Except.ok Option.none)
  | i, fuel + 1 =>
    match is_on s (cacheAt i) with
    | Except.error e => ([], Except.error e)
    | Except.ok r =>
      if r = some true then
        let rest := turnOffLoop s cacheAt (i + 1) fuel
        (Ev.sleep 2 :: Ev.refresh :: rest.1, rest.2)
      else ([], Except.ok (some i))

/-- Body of `async_turn_on`: `pet = self._coordinator.data[self._id]`
(`KeyError` if absent, `AttributeError` at `pet.tag_id` if `None`), then the
single `_add_tag_to_device` call, then the confirm loop. -/
def async_turn_on_run (s : PetFeederAccess) (cacheAt : Nat → Cache)
    (fuel : Nat) : List Ev × Except PyErr (Option Nat) :=
  match pyGetItem (cacheAt 0) s._id with
  | Except.error e => ([], Except.error e)
  | Except.ok Option.none => ([], Except.error PyErr.attributeError)
  | Except.ok (some pet) =>
    let rest := turnOnLoop s cacheAt 0 fuel
    (_add_tag_to_device s._feeder_id pet.tag_id :: rest.1, rest.2)

/-- `async_turn_on` as a transition on the entity: the method assigns no
attribute of `self`, so the entity component of the result is unchanged. -/
def async_turn_on (s : PetFeederAccess) (cacheAt : Nat → Cache) (fuel : Nat) :
    PetFeederAccess × List Ev × Except PyErr (Option Nat) :=
  (s, async_turn_on_run s cacheAt fuel)

/-- Body of `async_turn_off`: symmetric to `async_turn_on_run` with the
`DELETE` call and the `while self.is_on` loop. -/
def async_turn_off_run (s : PetFeederAccess) (cacheAt : Nat → Cache)
    (fuel : Nat) : List Ev × Except PyErr (Option Nat) :=
  match pyGetItem (cacheAt 0) s._id with
  | Except.error e => ([], Except.error e)
  | Except.ok Option.none => ([], Except.error PyErr.attributeError)
  | Except.ok (some pet) =>
    let rest := turnOffLoop s cacheAt 0 fuel
    (_remove_tag_from_device s._feeder_id pet.tag_id :: rest.1, rest.2)

/-- `async_turn_off` as a transition on the entity (no attribute of `self`
is assigned). -/
def async_turn_off (s : PetFeederAccess) (cacheAt : Nat → Cache) (fuel : Nat) :
    PetFeederAccess × List Ev × Except PyErr (Option Nat) :=
  (s, async_turn_off_run s cacheAt fuel)

/-- Event trace of a confirm loop that never exits: one `sleep(2)` and one
refresh per iteration. -/
def pollEvents : Nat → List Ev
  | 0 => []
  | n + 1 => Ev.sleep 2 :: Ev.refresh :: pollEvents n

/-- The pair-enumeration of `async_setup_entry` over the coordinator data's
values: filter the pets and the feeders, then for every pet iterate the
feeders, skipping (`continue`) a pair whose household ids differ and
otherwise appending one `PetFeederAccess(coordinator, p.id, f.id, spc)`. -/
def async_setup_entry (es : List Entity) : List (Nat × Nat) :=
  let pets := es.filter (fun e => e.etype == EntityType.pet)
  let feeders := es.filter (fun e => e.etype == EntityType.feeder)
  pets.flatMap (fun p =>
    feeders.filterMap (fun f =>
      if p.household_id == f.household_id then some (p.id, f.id)
      else Option.none))

/-- The `device_info` dictionary in the states it can be returned in: the
empty dict (`Option.none`) or the populated base record, possibly carrying a
`sw_version` entry. -/
structure BaseInfo where
  identifiers : String × Nat
  name : String
  manufacturer : String
  model : String
  sw_version : Option String

/-- The f-string assignment
`device["sw_version"] = f"lcd: {...['firmware']} | fw: {...['firmware']}"`:
each side is `x.get("version", x)["firmware"]`.  A `.get` on a non-dict
`x` raises `AttributeError` — modelled as returning the record built so far
(`base1`) with the caught flag `true` — while the `['firmware']` subscript
raises `KeyError`/`TypeError`, which propagate. -/
def lcdRfRender (base1 : BaseInfo) (lcd rf : PyVal) : Except PyErr (Option BaseInfo × Bool) :=
  match lcd with
  | PyVal.dict ll =>
    match pySub (pyGetD ll "version" lcd) "firmware" with
    | Except.error e1 => Except.error e1
    | Except.ok v1 =>
      match rf with
      | PyVal.dict rl =>
        match pySub (pyGetD rl "version" rf) "firmware" with
        | Except.error e2 => Except.error e2
        | Except.ok v2 =>
          let v1s := pyFmt v1
          let v2s := pyFmt v2
          Except.ok
            (some { base1 with sw_version := some s!"lcd: {v1s} | fw: {v2s}" },
             false)
      | _ => Except.ok (some base1, true)
  | _ => Except.ok (some base1, true)

/-- The firmware-version phase of `device_info`, entered when `self._state`
is truthy with the base device dict already assigned: `versions =
self._state.get("version", {})`, the `device`/`firmware` chain, then the
lcd/rf rendering.  A `.get` on a non-dict raises `AttributeError`, modelled
as returning the record built so far with the caught flag `true`; the
`['firmware']` subscripts can instead raise `KeyError`/`TypeError`, which
propagate. -/
def versionPhase (base : BaseInfo) (stv : PyVal) : Except PyErr (Option BaseInfo × Bool) :=
  match stv with
  | PyVal.dict st =>
    match pyGetD st "version" (PyVal.dict []) with
    | PyVal.dict vs =>
      match pyGetD vs "device" (PyVal.dict []) with
      | PyVal.dict dv =>
        let fw := pyGetD dv "firmware" PyVal.none
        let base1 :=
          if pyTruthy fw then { base with sw_version := some (pyFmt fw) }
          else base
        let lcd := pyGetD vs "lcd" (PyVal.dict [])
        if pyTruthy lcd then
          let rf := pyGetD vs "rf" (PyVal.dict [])
          if pyTruthy rf then lcdRfRender base1 lcd rf
          else Except.ok (some base1, false)
        else Except.ok (some base1, false)
      | _ => Except.ok (some base, true)
    | _ => Except.ok (some base, true)
  | _ => Except.ok (some base, true)

/-- `SurePetcareSwitch.device_info`: `device = {}`; inside `try`, build the
model string from the type title plus the first truthy of `serial_number`,
`mac_address`, `tag_id` in `raw_data()`; assign the populated dict (an
`AttributeError` from `None.capitalize()` leaves `device = {}`); if
`self._state` is truthy, run the firmware-version phase.  The second
component of the result records whether an `AttributeError` was raised and
caught. -/
def device_info (s : PetFeederAccess) : Except PyErr (Option BaseInfo × Bool) :=
  let e := s._surepy_entity
  let tn := typeTitle e.etype
  let serial := pyGetD e.raw "serial_number" PyVal.none
  let mac := pyGetD e.raw "mac_address" PyVal.none
  let tagv := pyGetD e.raw "tag_id" PyVal.none
  let serialS := pyFmt serial
  let macS := pyFmt mac
  let tagS := pyFmt tagv
  let model :=
    if pyTruthy serial then s!"{tn} ({serialS})"
    else if pyTruthy mac then s!"{tn} ({macS})"
    else if pyTruthy tagv then s!"{tn} ({tagS})"
    else tn
  match e.name with
  | Option.none => Except.ok (Option.none, true)
  | some nm =>
    let base : BaseInfo :=
      { identifiers := (DOMAIN, s._id)
        name := pyCapitalize nm
        manufacturer := SURE_MANUFACTURER
        model := model
        sw_version := Option.none }
    if pyTruthy s._state then versionPhase base s._state
    else Except.ok (some base, false)

/-! ## Concrete fixtures used by witnesses and counterexamples -/

/-- A pet snapshot: id 1, household 10, tag 7, non-empty raw status. -/
def petTom : Entity :=
  { id := 1, etype := EntityType.pet, household_id := 10, name := some "Tom",
    tag_id := 7, tags := [], raw := [("status", PyVal.dict [("k", PyVal.nat 1)])] }

/-- A feeder snapshot: id 2, household 10, tags with ids 3 and 9. -/
def feederKitchen : Entity :=
  { id := 2, etype := EntityType.feeder, household_id := 10,
    name := some "Kitchen", tag_id := 0, tags := [⟨3⟩, ⟨9⟩], raw := [] }

/-- The same feeder after the remote attach has propagated: tags 3, 7, 9. -/
def feederWith7 : Entity := { feederKitchen with tags := [⟨3⟩, ⟨7⟩, ⟨9⟩] }

/-- Cache holding both snapshots. -/
def cacheBoth : Cache := [(1, some petTom), (2, some feederKitchen)]

/-- Cache after the feeder has converged to contain tag 7. -/
def cacheConverged : Cache := [(1, some petTom), (2, some feederWith7)]

/-- Cache whose dict lacks the pet's key entirely. -/
def cacheNoPet : Cache := [(2, some feederKitchen)]

/-- Cache in which the feeder's key is present but maps to Python `None`. -/
def cacheNullFeeder : Cache := [(1, some petTom), (2, Option.none)]

/-- The toggle built by `mkPetFeederAccess cacheBoth 1 2` (checked by `rfl`
in the C9 witness). -/
def sw1 : PetFeederAccess :=
  { _id := 1, _feeder_id := 2, _surepy_entity := petTom,
    _state := PyVal.dict [("k", PyVal.nat 1)], _name := "Tom",
    _attr_available := true, _attr_name := "Pet Tom Kitchen Access",
    _attr_unique_id := "10-1-2-feeder-access",
    _attr_extra_state_attributes := some petTom.raw }

/-! ## Helper lemmas -/

/-- Inversion of a successful construction: the availability flag is the
truthiness of the captured status, and the state field is the status read
from the cached pet's raw data. -/
theorem mk_ok_avail (cache : Cache) (p f : Nat) (sw : PetFeederAccess)
    (hmk : mkPetFeederAccess cache p f = Except.ok sw) :
    sw._attr_available = pyTruthy sw._state := by
  rcases hp : pyGetItem cache p with e | v
  · simp [mkPetFeederAccess, hp] at hmk
  · rcases v with _ | ent
    · simp [mkPetFeederAccess, hp] at hmk
    · rcases hf : pyGetItem cache f with e | w
      · simp [mkPetFeederAccess, hp, hf] at hmk
      · rcases w with _ | feeder
        · simp [mkPetFeederAccess, hp, hf] at hmk
        · simp only [mkPetFeederAccess, hp, hf, Except.ok.injEq] at hmk
          subst hmk
          rfl

/-! ## Claims -/

/-- C1: for every toggle whose pet and feeder snapshots are both present in
the coordinator cache, `is_on` returns `on` iff the pet's `tag_id` is a
member of the set of ids of the feeder's tags. -/
theorem is_on_iff_membership (s : PetFeederAccess) (cache : Cache)
    (pet feeder : Entity)
    (hp : dictLookup cache s._id = some (some pet))
    (hf : dictLookup cache s._feeder_id = some (some feeder)) :
    is_on s cache = Except.ok (some (decide (pet.tag_id ∈ feeder.tags.map Tag.id)))
    ∧ (is_on s cache = Except.ok (some true) ↔ pet.tag_id ∈ feeder.tags.map Tag.id) := by
  have h1 : pyGetItem cache s._id = Except.ok (some pet) := by
    simp [pyGetItem, hp]
  have h2 : pyGetItem cache s._feeder_id = Except.ok (some feeder) := by
    simp [pyGetItem, hf]
  refine ⟨by simp [is_on, h1, h2], ?_⟩
  simp [is_on, h1, h2]

/-- C1 witness: at the concrete toggle and cache, both snapshots are present
and the query decides membership of tag 7 in {3, 9}. -/
theorem is_on_iff_membership_witness :
    dictLookup cacheBoth sw1._id = some (some petTom)
    ∧ dictLookup cacheBoth sw1._feeder_id = some (some feederKitchen)
    ∧ (is_on sw1 cacheBoth
         = Except.ok (some (decide (petTom.tag_id ∈ feederKitchen.tags.map Tag.id)))
       ∧ (is_on sw1 cacheBoth = Except.ok (some true)
            ↔ petTom.tag_id ∈ feederKitchen.tags.map Tag.id)) :=
  ⟨rfl, rfl, is_on_iff_membership sw1 cacheBoth petTom feederKitchen rfl rfl⟩

/-- C2: the claim says a snapshot missing from the coordinator cache makes
the state query return `unknown` without raising; the code instead indexes
the cache with a plain subscript, so a missing key raises `KeyError` before
the walrus guard (whose `return None` evidently was meant to cover missing
data) can fire.  At a cache lacking the pet's key, `is_on` raises. -/
theorem is_on_missing_pet_raises :
    is_on sw1 cacheNoPet = Except.error (PyErr.keyError 1) := rfl

/-- C9: the availability flag is assigned once in the constructor as the
truthiness of the captured raw "status" record (true iff non-empty, for a
dict status) and neither command transition updates any entity attribute. -/
theorem attr_available_fixed_at_construction (cache : Cache) (p f : Nat)
    (sw : PetFeederAccess) (d : List (String × PyVal))
    (hmk : mkPetFeederAccess cache p f = Except.ok sw)
    (hst : sw._state = PyVal.dict d) :
    sw._attr_available = !d.isEmpty
    ∧ ∀ cacheAt fuel, (async_turn_on sw cacheAt fuel).1 = sw
        ∧ (async_turn_off sw cacheAt fuel).1 = sw := by
  refine ⟨?_, fun cacheAt fuel => ⟨rfl, rfl⟩⟩
  rw [mk_ok_avail cache p f sw hmk, hst]
  rfl

/-- C9 witness: constructing the concrete toggle from `cacheBoth` sets
availability to `true` because the status dict is non-empty, and the
commands leave the entity record untouched. -/
theorem attr_available_fixed_at_construction_witness :
    mkPetFeederAccess cacheBoth 1 2 = Except.ok sw1
    ∧ sw1._state = PyVal.dict [("k", PyVal.nat 1)]
    ∧ (sw1._attr_available = !([(("k" : String), PyVal.nat 1)]).isEmpty
       ∧ ∀ cacheAt fuel, (async_turn_on sw1 cacheAt fuel).1 = sw1
           ∧ (async_turn_off sw1 cacheAt fuel).1 = sw1) :=
  ⟨rfl, rfl, attr_available_fixed_at_construction cacheBoth 1 2 sw1 _ rfl rfl⟩

/-- C10: constructing a `PetFeederAccess` subscripts the coordinator cache
with the pet id (in the base constructor) and the feeder id (in the
subclass constructor); a successful construction therefore implies both
keys are present, and an absent key raises the corresponding `KeyError`. -/
theorem mkPetFeederAccess_requires_both_ids (cache : Cache) (p f : Nat) :
    (∀ sw, mkPetFeederAccess cache p f = Except.ok sw →
        dictLookup cache p ≠ Option.none ∧ dictLookup cache f ≠ Option.none)
    ∧ (dictLookup cache p = Option.none →
        mkPetFeederAccess cache p f = Except.error (PyErr.keyError p))
    ∧ ∀ pet, dictLookup cache p = some (some pet) →
        dictLookup cache f = Option.none →
        mkPetFeederAccess cache p f = Except.error (PyErr.keyError f) := by
  refine ⟨?_, ?_, ?_⟩
  · intro sw h
    constructor
    · intro hn
      rw [show mkPetFeederAccess cache p f = Except.error (PyErr.keyError p) by
        simp [mkPetFeederAccess, pyGetItem, hn]] at h
      exact absurd h (by simp)
    · intro hn
      rcases hval : dictLookup cache p with _ | v
      · rw [show mkPetFeederAccess cache p f = Except.error (PyErr.keyError p) by
          simp [mkPetFeederAccess, pyGetItem, hval]] at h
        exact absurd h (by simp)
      · rcases v with _ | ent
        · rw [show mkPetFeederAccess cache p f = Except.error PyErr.attributeError by
            simp [mkPetFeederAccess, pyGetItem, hval]] at h
          exact absurd h (by simp)
        · rw [show mkPetFeederAccess cache p f = Except.error (PyErr.keyError f) by
            simp [mkPetFeederAccess, pyGetItem, hval, hn]] at h
          exact absurd h (by simp)
  · intro hn
    simp [mkPetFeederAccess, pyGetItem, hn]
  · intro pet hp hf
    simp [mkPetFeederAccess, pyGetItem, hp, hf]

/-- C10 witness: on the empty cache the constructor raises `KeyError` for
the pet id. -/
theorem mkPetFeederAccess_requires_both_ids_witness :
    dictLookup ([] : Cache) 1 = Option.none
    ∧ mkPetFeederAccess ([] : Cache) 1 2 = Except.error (PyErr.keyError 1) :=
  ⟨rfl, (mkPetFeederAccess_requires_both_ids ([] : Cache) 1 2).2.1 rfl⟩

/-- The `async_turn_on` confirm loop emits only sleeps and refreshes, never
a remote call. -/
theorem turnOnLoop_no_calls (s : PetFeederAccess) (cacheAt : Nat → Cache) :
    ∀ fuel i, ((turnOnLoop s cacheAt i fuel).1).filter isCall = [] := by
  intro fuel
  induction fuel with
  | zero => intro i; rfl
  | succ n ih =>
    intro i
    rcases his : is_on s (cacheAt i) with e | r
    · simp [turnOnLoop, his]
    · by_cases hr : r = some true
      · simp [turnOnLoop, his, hr]
      · simp [turnOnLoop, his, hr, isCall, ih (i + 1)]

/-- The `async_turn_off` confirm loop emits only sleeps and refreshes. -/
theorem turnOffLoop_no_calls (s : PetFeederAccess) (cacheAt : Nat → Cache) :
    ∀ fuel i, ((turnOffLoop s cacheAt i fuel).1).filter isCall = [] := by
  intro fuel
  induction fuel with
  | zero => intro i; rfl
  | succ n ih =>
    intro i
    rcases his : is_on s (cacheAt i) with e | r
    · simp [turnOffLoop, his]
    · by_cases hr : r = some true
      · simp [turnOffLoop, his, hr, isCall, ih (i + 1)]
      · simp [turnOffLoop, his, hr]

/-- If the `async_turn_on` confirm loop exited after `j` iterations, the
query reported `on` against the cache present at that check. -/
theorem turnOnLoop_exit_on (s : PetFeederAccess) (cacheAt : Nat → Cache) :
    ∀ fuel i j, (turnOnLoop s cacheAt i fuel).2 = Except.ok (some j) →
      is_on s (cacheAt j) = Except.ok (some true) := by
  intro fuel
  induction fuel with
  | zero => intro i j h; simp [turnOnLoop] at h
  | succ n ih =>
    intro i j h
    rcases his : is_on s (cacheAt i) with e | r
    · simp [turnOnLoop, his] at h
    · by_cases hr : r = some true
      · simp [turnOnLoop, his, hr] at h
        subst h
        rw [his, hr]
      · simp [turnOnLoop, his, hr] at h
        exact ih (i + 1) j h

/-- If the `async_turn_off` confirm loop exited after `j` iterations, the
query at that check was not `on` (it was `off` or `unknown`), and at every
earlier check from the starting index it was `on`. -/
theorem turnOffLoop_exit_char (s : PetFeederAccess) (cacheAt : Nat → Cache) :
    ∀ fuel i j, (turnOffLoop s cacheAt i fuel).2 = Except.ok (some j) →
      (∃ r, is_on s (cacheAt j) = Except.ok r ∧ r ≠ some true)
      ∧ ∀ k, i ≤ k → k < j → is_on s (cacheAt k) = Except.ok (some true) := by
  intro fuel
  induction fuel with
  | zero => intro i j h; simp [turnOffLoop] at h
  | succ n ih =>
    intro i j h
    rcases his : is_on s (cacheAt i) with e | r
    · simp [turnOffLoop, his] at h
    · by_cases hr : r = some true
      · simp [turnOffLoop, his, hr] at h
        obtain ⟨hexit, hall⟩ := ih (i + 1) j h
        refine ⟨hexit, fun k hik hkj => ?_⟩
        rcases Nat.eq_or_lt_of_le hik with heq | hlt
        · subst heq
          rw [his, hr]
        · exact hall k hlt hkj
      · simp [turnOffLoop, his, hr] at h
        subst h
        exact ⟨⟨r, his, hr⟩, fun k hik hki => absurd hik (by omega)⟩

/-- A never-converging environment keeps the `async_turn_on` confirm loop
running: every unfolding yields one `sleep(2)` plus one refresh and no
completion. -/
theorem turnOnLoop_no_convergence (s : PetFeederAccess) (cacheAt : Nat → Cache)
    (hnc : ∀ k, ∃ r, is_on s (cacheAt k) = Except.ok r ∧ r ≠ some true) :
    ∀ fuel i, turnOnLoop s cacheAt i fuel = (pollEvents fuel, Except.ok Option.none) := by
  intro fuel
  induction fuel with
  | zero => intro i; rfl
  | succ n ih =>
    intro i
    obtain ⟨r, hr, hne⟩ := hnc i
    simp [turnOnLoop, hr, hne, pollEvents, ih (i + 1)]

/-- C3: `async_turn_on` issues exactly one remote `PUT` (device id of the
feeder, the pet's cached `tag_id`); the event trace starts with that `PUT`,
so it precedes the confirm loop, and the loop re-issues no call; when the
command returns normally after `j` iterations, the query reported `on`. -/
theorem async_turn_on_single_put (s : PetFeederAccess) (cacheAt : Nat → Cache)
    (fuel : Nat) (pet : Entity)
    (hpet : dictLookup (cacheAt 0) s._id = some (some pet)) :
    ((async_turn_on s cacheAt fuel).2.1).filter isCall
        = [Ev.call "PUT" s._feeder_id pet.tag_id]
    ∧ (∃ t, (async_turn_on s cacheAt fuel).2.1
          = Ev.call "PUT" s._feeder_id pet.tag_id :: t)
    ∧ ∀ j, (async_turn_on s cacheAt fuel).2.2 = Except.ok (some j) →
        is_on s (cacheAt j) = Except.ok (some true) := by
  have hg : pyGetItem (cacheAt 0) s._id = Except.ok (some pet) := by
    simp [pyGetItem, hpet]
  refine ⟨?_, ?_, ?_⟩
  · simp [async_turn_on, async_turn_on_run, hg, _add_tag_to_device, isCall,
      turnOnLoop_no_calls s cacheAt fuel 0]
  · exact ⟨(turnOnLoop s cacheAt 0 fuel).1, by
      simp [async_turn_on, async_turn_on_run, hg, _add_tag_to_device]⟩
  · intro j h
    have h2 : (turnOnLoop s cacheAt 0 fuel).2 = Except.ok (some j) := by
      simpa [async_turn_on, async_turn_on_run, hg] using h
    exact turnOnLoop_exit_on s cacheAt fuel 0 j h2

/-- C3 witness: pet tag 7, feeder tags {3, 9}; the cache converges to
{3, 7, 9} after the first refresh. -/
theorem async_turn_on_single_put_witness :
    dictLookup ((fun k => if k = 0 then cacheBoth else cacheConverged) 0) sw1._id
        = some (some petTom)
    ∧ (((async_turn_on sw1 (fun k => if k = 0 then cacheBoth else cacheConverged) 3).2.1).filter isCall
          = [Ev.call "PUT" sw1._feeder_id petTom.tag_id]
       ∧ (∃ t, (async_turn_on sw1 (fun k => if k = 0 then cacheBoth else cacheConverged) 3).2.1
             = Ev.call "PUT" sw1._feeder_id petTom.tag_id :: t)
       ∧ ∀ j, (async_turn_on sw1 (fun k => if k = 0 then cacheBoth else cacheConverged) 3).2.2
             = Except.ok (some j) →
           is_on sw1 ((fun k => if k = 0 then cacheBoth else cacheConverged) j)
             = Except.ok (some true)) :=
  ⟨rfl, async_turn_on_single_put sw1
    (fun k => if k = 0 then cacheBoth else cacheConverged) 3 petTom rfl⟩

/-- C4 counterexample: the claim says the disable confirm loop terminates
exactly when the query reports `off`; but `while self.is_on` also exits on a
falsy `None`.  With the feeder's cache entry null, the query is `unknown`
(not `off`), yet `async_turn_off` returns after zero iterations. -/
theorem async_turn_off_unknown_exit_cex :
    is_on sw1 cacheNullFeeder = Except.ok Option.none
    ∧ (Option.none : Option Bool) ≠ some false
    ∧ async_turn_off sw1 (fun _ => cacheNullFeeder) 5
        = (sw1, [Ev.call "DELETE" 2 7], Except.ok (some 0)) :=
  ⟨rfl, by simp, rfl⟩

/-- C4 amended: `async_turn_off` issues exactly one remote `DELETE` and then
loops until the query no longer reports `on`: when it returns after `j`
iterations the query's result at that check was `off` or `unknown`, and at
every earlier check it was `on`. -/
theorem async_turn_off_delete_then_loop (s : PetFeederAccess)
    (cacheAt : Nat → Cache) (fuel : Nat) (pet : Entity)
    (hpet : dictLookup (cacheAt 0) s._id = some (some pet)) :
    ((async_turn_off s cacheAt fuel).2.1).filter isCall
        = [Ev.call "DELETE" s._feeder_id pet.tag_id]
    ∧ ∀ j, (async_turn_off s cacheAt fuel).2.2 = Except.ok (some j) →
        (∃ r, is_on s (cacheAt j) = Except.ok r ∧ r ≠ some true)
        ∧ ∀ k, k < j → is_on s (cacheAt k) = Except.ok (some true) := by
  have hg : pyGetItem (cacheAt 0) s._id = Except.ok (some pet) := by
    simp [pyGetItem, hpet]
  constructor
  · simp [async_turn_off, async_turn_off_run, hg, _remove_tag_from_device, isCall,
      turnOffLoop_no_calls s cacheAt fuel 0]
  · intro j h
    have h2 : (turnOffLoop s cacheAt 0 fuel).2 = Except.ok (some j) := by
      simpa [async_turn_off, async_turn_off_run, hg] using h
    obtain ⟨hexit, hall⟩ := turnOffLoop_exit_char s cacheAt fuel 0 j h2
    exact ⟨hexit, fun k hk => hall k (Nat.zero_le k) hk⟩

/-- C4 amended witness: with the pet's tag absent from the feeder, the
disable command returns after zero iterations with the query `off`. -/
theorem async_turn_off_delete_then_loop_witness :
    dictLookup ((fun _ => cacheBoth) 0) sw1._id = some (some petTom)
    ∧ (((async_turn_off sw1 (fun _ => cacheBoth) 4).2.1).filter isCall
          = [Ev.call "DELETE" sw1._feeder_id petTom.tag_id]
       ∧ ∀ j, (async_turn_off sw1 (fun _ => cacheBoth) 4).2.2 = Except.ok (some j) →
           (∃ r, is_on sw1 ((fun _ => cacheBoth) j) = Except.ok r ∧ r ≠ some true)
           ∧ ∀ k, k < j → is_on sw1 ((fun _ => cacheBoth) k) = Except.ok (some true)) :=
  ⟨rfl, async_turn_off_delete_then_loop sw1 (fun _ => cacheBoth) 4 petTom rfl⟩

/-- C5: if no refresh ever makes the query report `on` (and the query keeps
returning without raising), the enable command never completes: after any
number `fuel` of condition checks it is still running (`.ok none`), having
emitted the single `PUT` followed by one `sleep(2)` and one refresh per
iteration — polling at the fixed interval, never falsely reporting
completion. -/
theorem async_turn_on_never_completes (s : PetFeederAccess)
    (cacheAt : Nat → Cache) (fuel : Nat) (pet : Entity)
    (hpet : dictLookup (cacheAt 0) s._id = some (some pet))
    (hnc : ∀ k, ∃ r, is_on s (cacheAt k) = Except.ok r ∧ r ≠ some true) :
    async_turn_on s cacheAt fuel
      = (s, Ev.call "PUT" s._feeder_id pet.tag_id :: pollEvents fuel,
         Except.ok Option.none) := by
  have hg : pyGetItem (cacheAt 0) s._id = Except.ok (some pet) := by
    simp [pyGetItem, hpet]
  simp [async_turn_on, async_turn_on_run, hg, _add_tag_to_device,
    turnOnLoop_no_convergence s cacheAt hnc fuel 0]

/-- C5 witness: the cache never reflects tag 7, so after four checks the
command is still polling. -/
theorem async_turn_on_never_completes_witness :
    async_turn_on sw1 (fun _ => cacheBoth) 4
      = (sw1, Ev.call "PUT" sw1._feeder_id petTom.tag_id :: pollEvents 4,
         Except.ok Option.none) :=
  async_turn_on_never_completes sw1 (fun _ => cacheBoth) 4 petTom rfl
    (fun k => ⟨some false, rfl, by simp⟩)

/-- C6: with the query already `on`, `async_turn_on` returns normally after
zero loop iterations (cache untouched, so the state is still `on`); with
the query already `off`, `async_turn_off` likewise returns after zero
iterations. -/
theorem turn_commands_idempotent (s : PetFeederAccess) (cacheAt : Nat → Cache)
    (fuel : Nat) (pet : Entity)
    (hpet : dictLookup (cacheAt 0) s._id = some (some pet)) :
    (is_on s (cacheAt 0) = Except.ok (some true) →
       async_turn_on s cacheAt (fuel + 1)
         = (s, [Ev.call "PUT" s._feeder_id pet.tag_id], Except.ok (some 0)))
    ∧ (is_on s (cacheAt 0) = Except.ok (some false) →
       async_turn_off s cacheAt (fuel + 1)
         = (s, [Ev.call "DELETE" s._feeder_id pet.tag_id], Except.ok (some 0))) := by
  have hg : pyGetItem (cacheAt 0) s._id = Except.ok (some pet) := by
    simp [pyGetItem, hpet]
  constructor
  · intro hon
    simp [async_turn_on, async_turn_on_run, hg, _add_tag_to_device,
      turnOnLoop, hon]
  · intro hoff
    simp [async_turn_off, async_turn_off_run, hg, _remove_tag_from_device,
      turnOffLoop, hoff]

/-- C6 witness: enabling with the feeder already holding tag 7 and disabling
with the tag already absent both return after zero iterations. -/
theorem turn_commands_idempotent_witness :
    async_turn_on sw1 (fun _ => cacheConverged) 4
      = (sw1, [Ev.call "PUT" sw1._feeder_id petTom.tag_id], Except.ok (some 0))
    ∧ async_turn_off sw1 (fun _ => cacheBoth) 4
      = (sw1, [Ev.call "DELETE" sw1._feeder_id petTom.tag_id], Except.ok (some 0)) :=
  ⟨(turn_commands_idempotent sw1 (fun _ => cacheConverged) 3 petTom rfl).1 rfl,
   (turn_commands_idempotent sw1 (fun _ => cacheBoth) 3 petTom rfl).2 rfl⟩

/-- Guarded `filterMap` is a sublist of the corresponding `map`. -/
theorem filterMap_ite_sublist {α β : Type} (p : α → Bool) (h : α → β)
    (l : List α) :
    (l.filterMap (fun a => if p a then some (h a) else Option.none)).Sublist
      (l.map h) := by
  induction l with
  | nil => simp
  | cons a t ih =>
    by_cases hp : p a
    · simpa [List.filterMap_cons, hp] using ih.cons₂ (h a)
    · simp only [List.filterMap_cons, hp, if_neg, List.map_cons, Bool.false_eq_true,
        ite_false]
      exact ih.cons (h a)

/-- Membership in one pet's row of the enumeration: exactly the feeders of
the same household, as `(pet id, feeder id)` pairs. -/
theorem mem_setup_inner (p : Entity) (fs : List Entity) (x : Nat × Nat) :
    x ∈ fs.filterMap (fun f =>
        if p.household_id == f.household_id then some (p.id, f.id)
        else Option.none)
    ↔ ∃ f, f ∈ fs ∧ p.household_id = f.household_id ∧ x = (p.id, f.id) := by
  simp only [List.mem_filterMap]
  constructor
  · rintro ⟨f, hf, hx⟩
    by_cases hh : p.household_id == f.household_id
    · rw [if_pos hh] at hx
      exact ⟨f, hf, by simpa using hh, by simpa using hx.symm⟩
    · rw [if_neg hh] at hx
      exact absurd hx (by simp)
  · rintro ⟨f, hf, hh, rfl⟩
    exact ⟨f, hf, by simp [hh]⟩

/-- The first component of any enumerated pair in a pet's row is that pet's
id. -/
theorem mem_setup_inner_fst (p : Entity) (fs : List Entity) (x : Nat × Nat)
    (hx : x ∈ fs.filterMap (fun f =>
        if p.household_id == f.household_id then some (p.id, f.id)
        else Option.none)) :
    x.1 = p.id := by
  obtain ⟨f, -, -, rfl⟩ := (mem_setup_inner p fs x).mp hx
  rfl

/-- C7: the enumeration yields a pair for exactly the (pet, feeder) entity
pairs of the coordinator data with equal household ids — cross-household
pairs never appear — and (the cache being keyed by unique entity ids) each
such pair produces exactly one toggle: the output list has no duplicates. -/
theorem async_setup_entry_pairs (es : List Entity)
    (hids : (es.map Entity.id).Nodup) :
    (∀ pid fid, (pid, fid) ∈ async_setup_entry es ↔
        ∃ p, p ∈ es ∧ p.etype = EntityType.pet ∧ p.id = pid ∧
          ∃ f, f ∈ es ∧ f.etype = EntityType.feeder ∧ f.id = fid ∧
            p.household_id = f.household_id)
    ∧ (async_setup_entry es).Nodup := by
  constructor
  · intro pid fid
    rw [async_setup_entry, List.mem_flatMap]
    constructor
    · rintro ⟨p, hp, hx⟩
      obtain ⟨hp1, hp2⟩ := List.mem_filter.mp hp
      obtain ⟨f, hf, hh, heq⟩ := (mem_setup_inner p _ _).mp hx
      obtain ⟨hf1, hf2⟩ := List.mem_filter.mp hf
      injection heq with h1 h2
      exact ⟨p, hp1, by simpa using hp2, h1.symm, f, hf1, by simpa using hf2,
        h2.symm, hh⟩
    · rintro ⟨p, hp, hpt, rfl, f, hf, hft, rfl, hh⟩
      exact ⟨p, List.mem_filter.mpr ⟨hp, by simp [hpt]⟩,
        (mem_setup_inner p _ _).mpr
          ⟨f, List.mem_filter.mpr ⟨hf, by simp [hft]⟩, hh, rfl⟩⟩
  · have hp_ids : ((es.filter (fun e => e.etype == EntityType.pet)).map Entity.id).Nodup :=
      ((List.filter_sublist es).map Entity.id).nodup hids
    have hf_ids : ((es.filter (fun e => e.etype == EntityType.feeder)).map Entity.id).Nodup :=
      ((List.filter_sublist es).map Entity.id).nodup hids
    rw [async_setup_entry, List.nodup_flatMap]
    constructor
    · intro p hp
      have hmap : ((es.filter (fun e => e.etype == EntityType.feeder)).map
            (fun f => (p.id, f.id))).Nodup := by
        have hcomp : ((es.filter (fun e => e.etype == EntityType.feeder)).map
              (fun f => (p.id, f.id)))
            = ((es.filter (fun e => e.etype == EntityType.feeder)).map Entity.id).map
                (fun i => (p.id, i)) := by
          rw [List.map_map]
          rfl
        rw [hcomp]
        exact hf_ids.map (fun a b hab => congrArg Prod.snd hab)
      exact (filterMap_ite_sublist (fun (f : Entity) => p.household_id == f.household_id)
          (fun (f : Entity) => (p.id, f.id))
          (es.filter (fun e => e.etype == EntityType.feeder))).nodup hmap
    · have hpair : (es.filter (fun e => e.etype == EntityType.pet)).Pairwise
          (fun a b => a.id ≠ b.id) := by
        rw [List.Nodup, List.pairwise_map] at hp_ids
        exact hp_ids
      refine hpair.imp ?_
      intro a b hne x hxa hxb
      exact hne ((mem_setup_inner_fst a _ x hxa).symm.trans
        (mem_setup_inner_fst b _ x hxb))

/-- A feeder in a different household (99), used to check cross-household
pairs are skipped. -/
def feederOther : Entity :=
  { id := 5, etype := EntityType.feeder, household_id := 99,
    name := some "Barn", tag_id := 0, tags := [], raw := [] }

/-- Coordinator data values for the enumeration witness. -/
def esSetup : List Entity := [petTom, feederKitchen, feederOther]

/-- C7 witness: with one pet (household 10) and two feeders (households 10
and 99), the enumeration contains exactly the intra-household pair and no
duplicates. -/
theorem async_setup_entry_pairs_witness :
    (esSetup.map Entity.id).Nodup
    ∧ ((∀ pid fid, (pid, fid) ∈ async_setup_entry esSetup ↔
          ∃ p, p ∈ esSetup ∧ p.etype = EntityType.pet ∧ p.id = pid ∧
            ∃ f, f ∈ esSetup ∧ f.etype = EntityType.feeder ∧ f.id = fid ∧
              p.household_id = f.household_id)
       ∧ (async_setup_entry esSetup).Nodup) :=
  ⟨by decide, async_setup_entry_pairs esSetup (by decide)⟩

/-- `pySub` raises only `KeyError` or `TypeError`, never `AttributeError`. -/
theorem pySub_ne_attr (v : PyVal) (k : String) :
    pySub v k ≠ Except.error PyErr.attributeError := by
  rcases v with _ | sv | nv | l
  · simp [pySub]
  · simp [pySub]
  · simp [pySub]
  · rcases h : assocFind l k with _ | x <;> simp [pySub, h]

/-- A pet whose status carries a non-dict `version.device` record: the
`.get("firmware")` chained on it raises `AttributeError` after the base
device dict has already been assigned. -/
def petBadVer : Entity :=
  { id := 1, etype := EntityType.pet, household_id := 10, name := some "tom",
    tag_id := 7, tags := [],
    raw := [("status", PyVal.dict [("version", PyVal.dict [("device", PyVal.nat 5)])])] }

/-- The toggle wrapping `petBadVer`. -/
def swBadVer : PetFeederAccess :=
  { _id := 1, _feeder_id := 2, _surepy_entity := petBadVer,
    _state := PyVal.dict [("version", PyVal.dict [("device", PyVal.nat 5)])],
    _name := "tom", _attr_available := true,
    _attr_name := "Pet tom Kitchen Access",
    _attr_unique_id := "10-1-2-feeder-access",
    _attr_extra_state_attributes := Option.none }

/-- The populated base record `device_info` returns for `swBadVer`. -/
def cexBase : BaseInfo :=
  { identifiers := (DOMAIN, 1), name := pyCapitalize "tom",
    manufacturer := SURE_MANUFACTURER, model := "Pet",
    sw_version := Option.none }

/-- C8 counterexample: the claim says an attribute-lookup failure during the
device-info derivation yields an *empty* record; at `swBadVer` an
`AttributeError` is raised in the firmware-version phase (flag `true`) and
caught, yet the result is the already-assigned populated record, not the
empty one. -/
theorem device_info_attr_error_nonempty_cex :
    device_info swBadVer = Except.ok (some cexBase, true)
    ∧ (some cexBase : Option BaseInfo) ≠ Option.none :=
  ⟨rfl, by simp⟩

/-- A pet snapshot with a Python `None` name. -/
def petNoName : Entity :=
  { id := 1, etype := EntityType.pet, household_id := 10, name := Option.none,
    tag_id := 7, tags := [], raw := [] }

/-- The toggle wrapping `petNoName`. -/
def swNoName : PetFeederAccess :=
  { _id := 1, _feeder_id := 2, _surepy_entity := petNoName,
    _state := PyVal.dict [], _name := "Unnamed Pet", _attr_available := false,
    _attr_name := "Pet Unnamed Pet Kitchen Access", _attr_unique_id := "u",
    _attr_extra_state_attributes := Option.none }

/-- The lcd/rf rendering never results in an `AttributeError`. -/
theorem lcdRfRender_ne_attr (b1 : BaseInfo) (lcd rf : PyVal) :
    lcdRfRender b1 lcd rf ≠ Except.error PyErr.attributeError := by
  rcases lcd with _ | a | c | ll
  · simp [lcdRfRender]
  · simp [lcdRfRender]
  · simp [lcdRfRender]
  · rcases h1 : pySub (pyGetD ll "version" (PyVal.dict ll)) "firmware" with e1 | v1
    · simp only [lcdRfRender, h1]
      intro hc
      injection hc with hce
      exact pySub_ne_attr (pyGetD ll "version" (PyVal.dict ll)) "firmware" (hce ▸ h1)
    · rcases rf with _ | a2 | c2 | rl
      · simp [lcdRfRender, h1]
      · simp [lcdRfRender, h1]
      · simp [lcdRfRender, h1]
      · rcases h2 : pySub (pyGetD rl "version" (PyVal.dict rl)) "firmware" with e2 | v2
        · simp only [lcdRfRender, h1, h2]
          intro hc
          injection hc with hce
          exact pySub_ne_attr (pyGetD rl "version" (PyVal.dict rl)) "firmware" (hce ▸ h2)
        · simp [lcdRfRender, h1, h2]

/-- The firmware-version phase never results in an `AttributeError`: those
are caught inside it, and only subscript errors escape. -/
theorem versionPhase_ne_attr (b : BaseInfo) (stv : PyVal) :
    versionPhase b stv ≠ Except.error PyErr.attributeError := by
  rcases stv with _ | sv | nv | st
  · simp [versionPhase]
  · simp [versionPhase]
  · simp [versionPhase]
  · rcases hver : pyGetD st "version" (PyVal.dict []) with _ | a | c | vs
    · simp [versionPhase, hver]
    · simp [versionPhase, hver]
    · simp [versionPhase, hver]
    · rcases hdev : pyGetD vs "device" (PyVal.dict []) with _ | a | c | dv
      · simp [versionPhase, hver, hdev]
      · simp [versionPhase, hver, hdev]
      · simp [versionPhase, hver, hdev]
      · by_cases hl : pyTruthy (pyGetD vs "lcd" (PyVal.dict []))
        · by_cases hr : pyTruthy (pyGetD vs "rf" (PyVal.dict []))
          · simp only [versionPhase, hver, hdev, hl, hr, if_true]
            exact lcdRfRender_ne_attr _ _ _
          · simp [versionPhase, hver, hdev, hl, hr]
        · simp [versionPhase, hver, hdev, hl]

/-- C8 amended: every `AttributeError` raised while deriving device-info is
caught and suppressed (the result is never that error), and the derivation
yields the *empty* record exactly when the failure strikes while the base
record is being composed (e.g. a null entity name); a failure in the later
firmware-version phase instead returns the populated base record. -/
theorem device_info_attr_errors_suppressed (s : PetFeederAccess) :
    device_info s ≠ Except.error PyErr.attributeError
    ∧ (s._surepy_entity.name = Option.none →
        device_info s = Except.ok (Option.none, true)) := by
  constructor
  · intro h
    rcases hname : s._surepy_entity.name with _ | nm
    · rw [device_info] at h
      simp only [hname] at h
      exact Except.noConfusion h
    · rw [device_info] at h
      simp only [hname] at h
      by_cases ht : pyTruthy s._state
      · simp only [ht, if_pos] at h
        exact versionPhase_ne_attr _ _ h
      · simp only [ht, Bool.false_eq_true, if_neg] at h
        exact Except.noConfusion h
  · intro hname
    simp [device_info, hname]

/-- C8 amended witness: a null entity name makes the base-record phase raise
and the result is the empty record with the caught flag set. -/
theorem device_info_attr_errors_suppressed_witness :
    device_info swNoName = Except.ok (Option.none, true) :=
  (device_info_attr_errors_suppressed swNoName).2 rfl
